import Mathlib

/-!
Verification of the Media Relay of the E-T-Backend server (`src/index.js`,
route `app.ws("/media-stream", ...)`).

The relay bridges a Twilio media-stream WebSocket (the "Carrier Leg", `ws`)
and an ElevenLabs conversational-agent WebSocket (the "Agent Leg",
`elevenLabsWs`).  We embed the per-session state (`streamSid` plus the two
sockets' ready states), the two message handlers, and the close handlers as
pure Lean functions, and prove the specified properties about them.

Base64: the carrier→agent media path re-encodes the payload with
`Buffer.from(data.media.payload, "base64").toString("base64")`, so we embed
Node's base64 decoder (lenient: characters outside the base64 alphabet,
including `=` padding, are skipped; a trailing group of 2 or 3 sextets
yields 1 or 2 bytes, a lone trailing sextet is dropped) and the standard
padded base64 encoder used by `Buffer.toString("base64")`.
-/

/-- The standard base64 alphabet, index `v` holds the character for
sextet value `v`. -/
def base64Alphabet : List Char :=
  ['A','B','C','D','E','F','G','H','I','J','K','L','M','N','O','P',
   'Q','R','S','T','U','V','W','X','Y','Z',
   'a','b','c','d','e','f','g','h','i','j','k','l','m','n','o','p',
   'q','r','s','t','u','v','w','x','y','z',
   '0','1','2','3','4','5','6','7','8','9','+','/']

/-- Character for a sextet value (0..63). -/
def b64char (v : Nat) : Char := base64Alphabet.getD v '='

/-- Sextet value of a base64 alphabet character; `none` for any other
character (such characters are skipped by Node's lenient decoder). -/
def sextetVal (c : Char) : Option Nat :=
  let n := c.toNat
  if 65 ≤ n ∧ n ≤ 90 then some (n - 65)
  else if 97 ≤ n ∧ n ≤ 122 then some (n - 97 + 26)
  else if 48 ≤ n ∧ n ≤ 57 then some (n - 48 + 52)
  else if n = 43 then some 62
  else if n = 47 then some 63
  else none

/-- Decode a list of sextet values into bytes: each full group of four
sextets yields three bytes; a trailing group of two or three sextets yields
one or two bytes; a lone trailing sextet yields nothing. -/
def decodeSextets : List Nat → List Nat
  | a :: b :: c :: d :: rest =>
      (a * 4 + b / 16) :: ((b % 16) * 16 + c / 4) :: ((c % 4) * 64 + d) ::
        decodeSextets rest
  | [a, b] => [a * 4 + b / 16]
  | [a, b, c] => [a * 4 + b / 16, (b % 16) * 16 + c / 4]
  | _ => []

/-- `Buffer.from(s, "base64")`: Node's lenient base64 decoder — skip
non-alphabet characters (including `=`), then decode the sextets. -/
def bufferFromBase64 (cs : List Char) : List Nat :=
  decodeSextets (cs.filterMap sextetVal)

/-- `buf.toString("base64")`: standard padded base64 encoding of a byte
list. -/
def bufferToBase64 : List Nat → List Char
  | x :: y :: z :: rest =>
      b64char (x / 4) :: b64char ((x % 4) * 16 + y / 16) ::
        b64char ((y % 16) * 4 + z / 64) :: b64char (z % 64) ::
        bufferToBase64 rest
  | [x] => [b64char (x / 4), b64char ((x % 4) * 16), '=', '=']
  | [x, y] => [b64char (x / 4), b64char ((x % 4) * 16 + y / 16),
               b64char ((y % 16) * 4), '=']
  | [] => []

/-- `Buffer.from(s, "base64").toString("base64")` as applied to the media
payload in the carrier message handler of src/index.js line 94. -/
def bufferBase64RoundTrip (s : String) : String :=
  ⟨bufferToBase64 (bufferFromBase64 s.data)⟩

/-- A string is a valid base64 string when it is the base64 encoding of
some byte sequence. -/
def IsValidBase64 (s : String) : Prop :=
  ∃ bs : List Nat, (∀ b ∈ bs, b < 256) ∧ s.data = bufferToBase64 bs

theorem sextetVal_b64char : ∀ v < 64, sextetVal (b64char v) = some v := by
  decide

theorem sextetVal_pad : sextetVal '=' = none := by decide

theorem b64char_lt (v : Nat) (h : v < 64) :
    (sextetVal (b64char v)).isSome := by
  rw [sextetVal_b64char v h]; rfl

/-- Decoding inverts encoding on byte lists. -/
theorem bufferFromBase64_bufferToBase64 :
    ∀ bs : List Nat, (∀ b ∈ bs, b < 256) →
      bufferFromBase64 (bufferToBase64 bs) = bs := by
  intro bs
  induction bs using bufferToBase64.induct with
  | case1 x y z rest ih =>
      intro h
      have hx : x < 256 := h x (by simp)
      have hy : y < 256 := h y (by simp)
      have hz : z < 256 := h z (by simp)
      have h1 : x / 4 < 64 := by omega
      have h2 : (x % 4) * 16 + y / 16 < 64 := by omega
      have h3 : (y % 16) * 4 + z / 64 < 64 := by omega
      have h4 : z % 64 < 64 := by omega
      have ihr : bufferFromBase64 (bufferToBase64 rest) = rest := by
        apply ih; intro b hb; exact h b (by simp [hb])
      simp only [bufferToBase64, bufferFromBase64, List.filterMap_cons,
        sextetVal_b64char _ h1, sextetVal_b64char _ h2,
        sextetVal_b64char _ h3, sextetVal_b64char _ h4] at *
      simp only [decodeSextets, bufferFromBase64] at *
      rw [ihr]
      simp only [List.cons.injEq, and_true]
      refine ⟨by omega, by omega, by omega⟩
  | case2 x =>
      intro h
      have hx : x < 256 := h x (by simp)
      have h1 : x / 4 < 64 := by omega
      have h2 : (x % 4) * 16 < 64 := by omega
      simp only [bufferToBase64, bufferFromBase64, List.filterMap_cons,
        sextetVal_b64char _ h1, sextetVal_b64char _ h2, sextetVal_pad]
      simp only [List.filterMap_nil, decodeSextets]
      simp only [List.cons.injEq, and_true]
      omega
  | case3 x y =>
      intro h
      have hx : x < 256 := h x (by simp)
      have hy : y < 256 := h y (by simp)
      have h1 : x / 4 < 64 := by omega
      have h2 : (x % 4) * 16 + y / 16 < 64 := by omega
      have h3 : (y % 16) * 4 < 64 := by omega
      simp only [bufferToBase64, bufferFromBase64, List.filterMap_cons,
        sextetVal_b64char _ h1, sextetVal_b64char _ h2,
        sextetVal_b64char _ h3, sextetVal_pad]
      simp only [List.filterMap_nil, decodeSextets]
      simp only [List.cons.injEq, and_true]
      omega
  | case4 =>
      intro _
      rfl

/-- On valid base64 strings, the `Buffer` round trip of the media handler
is the identity. -/
theorem bufferBase64RoundTrip_valid (s : String) (h : IsValidBase64 s) :
    bufferBase64RoundTrip s = s := by
  obtain ⟨bs, hbs, hdata⟩ := h
  unfold bufferBase64RoundTrip
  rw [hdata, bufferFromBase64_bufferToBase64 bs hbs, ← hdata]

/-!
The relay session itself.  `app.ws("/media-stream", ...)` creates, per
connection, the closure variable `streamSid` (initially `null`) and the two
sockets; we model the session state as those pieces, with each socket
abstracted to its ready state.
-/

/-- WebSocket ready states (the `ws` library constants). -/
inductive WsState where
  | CONNECTING
  | OPEN
  | CLOSING
  | CLOSED
deriving DecidableEq, Repr

/-- `socket.close()`: idempotent; the socket ends up closed (we abstract
the closing handshake to its final state). -/
def wsClose (_ : WsState) : WsState := WsState.CLOSED

/-- Per-session relay state: the `streamSid` closure variable (`null`
until a `start` frame assigns it), the Agent Leg socket `elevenLabsWs`,
and the Carrier Leg socket `ws`. -/
structure Session where
  streamSid : Option String
  elevenLabsWs : WsState
  ws : WsState
deriving DecidableEq, Repr

/-- The session state right after `app.ws("/media-stream", ...)` fires:
`streamSid = null`, the Agent Leg still connecting, the Carrier Leg open. -/
def initialSession : Session :=
  { streamSid := none, elevenLabsWs := WsState.CONNECTING, ws := WsState.OPEN }

/-- An inbound Carrier (Twilio) frame as seen after `JSON.parse`:
`malformed` is a message on which `JSON.parse` throws; `start` carries
`data.start.streamSid` (`startSid = none` models a `start`-tagged frame
whose `start` object is missing, so that the field access throws);
`media` carries `data.media.payload` (`payload = none` models a missing
`media` object or payload, so that `Buffer.from` throws); `stop` carries
nothing; `other` is any other `event` tag. -/
inductive CarrierMsg where
  | malformed
  | start (startSid : Option String)
  | media (payload : Option String)
  | stop
  | other
deriving DecidableEq, Repr

/-- An inbound Agent (ElevenLabs) frame as seen after `JSON.parse`:
`audio` carries `message.audio_event?.audio_base_64` (`none` when the
optional chain yields `undefined`); `ping` carries
`message.ping_event?.event_id`; `other` is any other `type` tag. -/
inductive AgentMsg where
  | malformed
  | audio (audioBase64 : Option String)
  | interruption
  | ping (eventId : Option String)
  | other
deriving DecidableEq, Repr

/-- A frame sent to the Agent Leg (`elevenLabsWs.send`). -/
inductive AgentOutFrame where
  | userAudioChunk (payload : String)
  | pong (eventId : String)
deriving DecidableEq, Repr

/-- A frame sent to the Carrier Leg (`ws.send`); `streamSid = none`
renders as JSON `null`. -/
inductive CarrierOutFrame where
  | media (streamSid : Option String) (payload : String)
  | clear (streamSid : Option String)
deriving DecidableEq, Repr

/-- An outbound frame, tagged with the leg it is sent on. -/
inductive Out where
  | toAgent (f : AgentOutFrame)
  | toCarrier (f : CarrierOutFrame)
deriving DecidableEq, Repr

/-- The Carrier message handler `ws.on("message", ...)` (src/index.js
lines 85-103).  `start` assigns `streamSid`; `media` forwards the payload
through the `Buffer` base64 round trip, but only when
`elevenLabsWs.readyState === WebSocket.OPEN`; `stop` closes the Agent
Leg.  The `try/catch` turns a parse failure or a missing-field access
throw into a logged no-op. -/
def handleCarrierMsg (st : Session) : CarrierMsg → Session × List Out
  | CarrierMsg.malformed => (st, [])
  | CarrierMsg.start none => (st, [])
  | CarrierMsg.start (some sid) => ({ st with streamSid := some sid }, [])
  | CarrierMsg.media payload =>
      if st.elevenLabsWs = WsState.OPEN then
        match payload with
        | some p =>
            (st, [Out.toAgent (AgentOutFrame.userAudioChunk
                    (bufferBase64RoundTrip p))])
        | none => (st, [])
      else (st, [])
  | CarrierMsg.stop => ({ st with elevenLabsWs := wsClose st.elevenLabsWs }, [])
  | CarrierMsg.other => (st, [])

/-- The Agent message handler `elevenLabsWs.on("message", ...)`
(src/index.js lines 62-83).  `audio` and `ping` guard on JavaScript
truthiness of the optional-chained field (absent or the empty string is
falsy); `interruption` always emits a `clear` frame carrying the current
`streamSid`. -/
def handleAgentMsg (st : Session) : AgentMsg → Session × List Out
  | AgentMsg.malformed => (st, [])
  | AgentMsg.audio (some p) =>
      if p = "" then (st, [])
      else (st, [Out.toCarrier (CarrierOutFrame.media st.streamSid p)])
  | AgentMsg.audio none => (st, [])
  | AgentMsg.interruption => (st, [Out.toCarrier (CarrierOutFrame.clear st.streamSid)])
  | AgentMsg.ping (some e) =>
      if e = "" then (st, [])
      else (st, [Out.toAgent (AgentOutFrame.pong e)])
  | AgentMsg.ping none => (st, [])
  | AgentMsg.other => (st, [])

/-- A session event: a message delivered on one leg, or a leg's close
event. -/
inductive Ev where
  | fromCarrier (m : CarrierMsg)
  | fromAgent (m : AgentMsg)
  | carrierClose
  | agentClose
deriving DecidableEq, Repr

/-- One step of the session.  `carrierClose` fires
`ws.on("close", () => elevenLabsWs.close())` (line 105): the Carrier Leg
is now closed and the handler closes the Agent Leg.  `agentClose` fires
`elevenLabsWs.on("close", () => console.log(...))` (line 59): the Agent
Leg is now closed and the handler only logs. -/
def step (st : Session) : Ev → Session × List Out
  | Ev.fromCarrier m => handleCarrierMsg st m
  | Ev.fromAgent m => handleAgentMsg st m
  | Ev.carrierClose =>
      ({ st with ws := WsState.CLOSED,
                 elevenLabsWs := wsClose st.elevenLabsWs }, [])
  | Ev.agentClose => ({ st with elevenLabsWs := WsState.CLOSED }, [])

/-- Run a session over a list of events, collecting all outbound frames
in order. -/
def run (st : Session) : List Ev → Session × List Out
  | [] => (st, [])
  | e :: es =>
      let r1 := step st e
      let r2 := run r1.1 es
      (r2.1, r1.2 ++ r2.2)

/-!
Claim theorems.
-/

/-- C1, counterexample: closing the Agent Leg does not close the Carrier
Leg.  From the initial session state, the `agentClose` event leaves the
Carrier Leg `ws` open: `elevenLabsWs.on("close", ...)` only logs, so the
claimed agent→carrier close propagation fails. -/
theorem C1_counterexample :
    step initialSession Ev.agentClose =
      ({ streamSid := none, elevenLabsWs := WsState.CLOSED,
         ws := WsState.OPEN }, []) ∧
    (step initialSession Ev.agentClose).1.ws ≠ WsState.CLOSED := by
  decide

/-- C1, amended: closing the Carrier Leg closes the Agent Leg (and this is
idempotent: when the Agent Leg is already closed, the close is a no-op and
it stays closed, with no outbound frame); closing the Agent Leg does not
close the Carrier Leg — its close handler only logs, leaving the Carrier
Leg's state unchanged. -/
theorem C1_close_propagation (st : Session) :
    step st Ev.carrierClose =
      ({ st with ws := WsState.CLOSED, elevenLabsWs := WsState.CLOSED }, []) ∧
    step { st with elevenLabsWs := WsState.CLOSED } Ev.carrierClose =
      ({ st with elevenLabsWs := WsState.CLOSED, ws := WsState.CLOSED }, []) ∧
    step st Ev.agentClose = ({ st with elevenLabsWs := WsState.CLOSED }, []) ∧
    (step st Ev.agentClose).1.ws = st.ws := by
  refine ⟨rfl, rfl, rfl, rfl⟩

/-- C2: a Carrier `media` frame with a valid base64 payload `P`, handled
while the Agent Leg is `OPEN`, emits exactly one agent-bound frame,
`{user_audio_chunk: P}`, with the payload unchanged, and leaves the
session state unchanged. -/
theorem C2_media_passthrough (st : Session) (P : String)
    (hws : st.elevenLabsWs = WsState.OPEN) (hP : IsValidBase64 P) :
    handleCarrierMsg st (CarrierMsg.media (some P)) =
      (st, [Out.toAgent (AgentOutFrame.userAudioChunk P)]) := by
  simp [handleCarrierMsg, hws, bufferBase64RoundTrip_valid P hP]

theorem C2_media_passthrough_witness :
    handleCarrierMsg
        { streamSid := none, elevenLabsWs := WsState.OPEN, ws := WsState.OPEN }
        (CarrierMsg.media (some "QUJD")) =
      ({ streamSid := none, elevenLabsWs := WsState.OPEN, ws := WsState.OPEN },
       [Out.toAgent (AgentOutFrame.userAudioChunk "QUJD")]) :=
  C2_media_passthrough _ "QUJD" rfl ⟨[65, 66, 67], by decide, by decide⟩

/-- C3, counterexample: `streamSid` is not written at most once — a second
`start` frame reassigns it to a different value.  Running the session over
two `start` frames with distinct stream identifiers ends with the second
identifier, so a later frame did reassign an already-set `streamSid`. -/
theorem C3_counterexample :
    (run initialSession [Ev.fromCarrier (CarrierMsg.start (some "SID_A"))]).1.streamSid
        = some "SID_A" ∧
    (run initialSession [Ev.fromCarrier (CarrierMsg.start (some "SID_A")),
                         Ev.fromCarrier (CarrierMsg.start (some "SID_B"))]).1.streamSid
        = some "SID_B" ∧
    some "SID_B" ≠ (some "SID_A" : Option String) := by
  decide

/-- C3, amended: no event other than a carrier `start` frame ever modifies
`streamSid`, and a `start` frame carrying identifier `S` sets it to `S`
(a later `start` frame overwrites it); hence in a run containing at most
one `start` frame, `streamSid` transitions from unset to set at most once. -/
theorem C3_streamSid_only_start (st : Session) (ev : Ev) (S : String) :
    ((step st ev).1.streamSid = st.streamSid ∨
      ∃ S', ev = Ev.fromCarrier (CarrierMsg.start (some S')) ∧
        (step st ev).1.streamSid = some S') ∧
    (step st (Ev.fromCarrier (CarrierMsg.start (some S)))).1.streamSid = some S := by
  constructor
  · cases ev with
    | fromCarrier m =>
        cases m with
        | malformed => left; rfl
        | start sid =>
            cases sid with
            | none => left; rfl
            | some s => right; exact ⟨s, rfl, rfl⟩
        | media p =>
            left
            simp only [step, handleCarrierMsg]
            split
            · cases p <;> rfl
            · rfl
        | stop => left; rfl
        | other => left; rfl
    | fromAgent m =>
        left
        cases m with
        | malformed => rfl
        | audio p =>
            cases p with
            | none => rfl
            | some s =>
                simp only [step, handleAgentMsg]
                split <;> rfl
        | interruption => rfl
        | ping e =>
            cases e with
            | none => rfl
            | some s =>
                simp only [step, handleAgentMsg]
                split <;> rfl
        | other => rfl
    | carrierClose => left; rfl
    | agentClose => left; rfl
  · rfl

/-- C4, counterexample: a ping whose `event_id` is the empty string gets
no pong — the JavaScript truthiness guard `message.ping_event?.event_id`
rejects `""`, so the handler emits nothing instead of the claimed single
`{type:"pong", event_id:""}` reply. -/
theorem C4_counterexample :
    handleAgentMsg initialSession (AgentMsg.ping (some "")) =
      (initialSession, []) ∧
    (handleAgentMsg initialSession (AgentMsg.ping (some ""))).2 ≠
      [Out.toAgent (AgentOutFrame.pong "")] := by
  decide

/-- C4, amended: for every non-empty event-identifier string `e`, an Agent
`ping` frame carrying `e` yields exactly one `pong` reply echoing `e` on
the Agent Leg, in every session state (whether `streamSid` is set or not),
and nothing is sent to the Carrier Leg. -/
theorem C4_ping_pong (st : Session) (e : String) (he : e ≠ "") :
    handleAgentMsg st (AgentMsg.ping (some e)) =
      (st, [Out.toAgent (AgentOutFrame.pong e)]) := by
  simp [handleAgentMsg, he]

theorem C4_ping_pong_witness :
    handleAgentMsg initialSession (AgentMsg.ping (some "evt1")) =
      (initialSession, [Out.toAgent (AgentOutFrame.pong "evt1")]) :=
  C4_ping_pong initialSession "evt1" (by decide)

/-- C5: a Carrier `media` frame handled while the Agent Leg is not `OPEN`
produces zero outbound frames on either leg and leaves the session state
unchanged (silently dropped, not queued, no error). -/
theorem C5_media_dropped (st : Session) (p : Option String)
    (hws : st.elevenLabsWs ≠ WsState.OPEN) :
    handleCarrierMsg st (CarrierMsg.media p) = (st, []) := by
  simp [handleCarrierMsg, hws]

theorem C5_media_dropped_witness :
    handleCarrierMsg
        { streamSid := none, elevenLabsWs := WsState.CONNECTING, ws := WsState.OPEN }
        (CarrierMsg.media (some "QUJD")) =
      ({ streamSid := none, elevenLabsWs := WsState.CONNECTING, ws := WsState.OPEN },
       []) :=
  C5_media_dropped _ (some "QUJD") (by decide)

/-- C6: a Carrier `stop` frame closes the Agent Leg, leaves the Carrier
Leg's state untouched, emits no outbound frame on either leg, and leaves
`streamSid` unchanged. -/
theorem C6_stop_closes_agent (st : Session) :
    handleCarrierMsg st CarrierMsg.stop =
      ({ st with elevenLabsWs := WsState.CLOSED }, []) ∧
    (handleCarrierMsg st CarrierMsg.stop).1.ws = st.ws ∧
    (handleCarrierMsg st CarrierMsg.stop).1.streamSid = st.streamSid ∧
    (handleCarrierMsg st CarrierMsg.stop).2 = [] := by
  refine ⟨rfl, rfl, rfl, rfl⟩

/-- C7: a malformed (non-JSON-parseable) message on either leg is a total,
caught no-op — no outbound frame, no state change (so neither leg closes
and `streamSid` is untouched) — and the session translates the remaining
events exactly as it would have without the malformed message. -/
theorem C7_malformed_noop (st : Session) (evs : List Ev) :
    handleCarrierMsg st CarrierMsg.malformed = (st, []) ∧
    handleAgentMsg st AgentMsg.malformed = (st, []) ∧
    run st (Ev.fromCarrier CarrierMsg.malformed :: evs) = run st evs ∧
    run st (Ev.fromAgent AgentMsg.malformed :: evs) = run st evs := by
  refine ⟨rfl, rfl, ?_, ?_⟩ <;> simp [run, step, handleCarrierMsg, handleAgentMsg]

/-- C8: an Agent `audio` frame with non-empty payload `P`, handled after
`streamSid` has been set to `S`, yields exactly one carrier-bound frame
`{event:"media", streamSid:S, media:{payload:P}}`, the payload passed
through unchanged, and leaves the session state unchanged. -/
theorem C8_audio_forward (st : Session) (S P : String)
    (hsid : st.streamSid = some S) (hP : P ≠ "") :
    handleAgentMsg st (AgentMsg.audio (some P)) =
      (st, [Out.toCarrier (CarrierOutFrame.media (some S) P)]) := by
  simp [handleAgentMsg, hP, hsid]

theorem C8_audio_forward_witness :
    handleAgentMsg
        { streamSid := some "SID123", elevenLabsWs := WsState.OPEN, ws := WsState.OPEN }
        (AgentMsg.audio (some "AB")) =
      ({ streamSid := some "SID123", elevenLabsWs := WsState.OPEN, ws := WsState.OPEN },
       [Out.toCarrier (CarrierOutFrame.media (some "SID123") "AB")]) :=
  C8_audio_forward _ "SID123" "AB" rfl (by decide)

/-- C9: an Agent `interruption` frame yields exactly one carrier-bound
`clear` frame carrying the current `streamSid`; in particular, when
`streamSid` is still unset the `clear` frame is sent anyway, carrying the
null identifier, rather than being dropped. -/
theorem C9_interruption_clear (st : Session) :
    handleAgentMsg st AgentMsg.interruption =
      (st, [Out.toCarrier (CarrierOutFrame.clear st.streamSid)]) ∧
    handleAgentMsg { st with streamSid := none } AgentMsg.interruption =
      ({ st with streamSid := none },
       [Out.toCarrier (CarrierOutFrame.clear none)]) := by
  refine ⟨rfl, rfl⟩

/-- C10: a Carrier frame tagged `start` whose `start` object is missing is
caught by the handler's `try/catch` (the access `data.start.streamSid`
throws): no outbound frame on either leg, no leg closed, and `streamSid`
keeps its previous value. -/
theorem C10_start_missing_noop (st : Session) :
    handleCarrierMsg st (CarrierMsg.start none) = (st, []) := by
  rfl
